import Mathlib

/-!
Verification of the QuickBooks Online connector
(src/connectors/quickbooks.py) against its specification.

The connector is embedded shallowly: the mutable fields of
QuickBooksConnector become an explicit ConnState record, the token file
becomes an explicit Option store value, upstream HTTP responses become
explicit inputs (the token endpoint returns a status code and a parsed
TokenResponse body; the resource API returns a status code and a body
string), and the wall clock becomes an explicit integer parameter.
Network activity is made observable: refresh calls are counted and each
resource call records the bearer token it was issued with.

Exception model.  The connector builds its logger with the standard
library logging.getLogger, but several of its logging calls pass
structlog-style keyword arguments (status_code=..., response=...,
error=..., realm_id=..., expires_in=...).  The standard library logger
forwards unknown keyword arguments to Logger._log, which rejects them
with a TypeError — but only when the call is actually emitted, that is,
when the level of the call is enabled.  ERROR and WARNING are enabled
under every configuration (the library default level is WARNING);
whether INFO is enabled is the infoEnabled parameter of the operations
that log at INFO level with keyword arguments — the application entry
point runs logging.basicConfig at INFO level at import, so INFO is
enabled in every run of this application.  Consequently the embedding
raises a typeError at each such logging site, and the QuickBooksError
raises that stand behind a keyword-argument logger.error call are
unreachable (their status and body are never surfaced).  Logging calls
without keyword arguments are harmless no-ops.  Exceptions raised by
the Python code become an Except error value; state mutations performed
before a raise are kept, as in the source.
-/

namespace QB

/-- A parsed JSON body from the token endpoint.  A field is `none` when
the key is absent from the response object (the connector reads the
fields with dict.get, so absent keys fall back to the stated defaults). -/
structure TokenResponse where
  access_token : Option String
  refresh_token : Option String
  expires_in : Option Int
deriving Repr, DecidableEq

/-- The mutable token fields of QuickBooksConnector:
access_token, refresh_token, realm_id, token_expiry. -/
structure ConnState where
  access_token : Option String
  refresh_token : Option String
  realm_id : Option String
  token_expiry : Option Int
deriving Repr, DecidableEq

/-- Python truthiness of an optional string: None and the empty string
are falsy, every other string is truthy. -/
def truthy : Option String → Bool
  | none => false
  | some s => !s.isEmpty

/-- The state set up by the constructor before _load_tokens runs:
all four token fields are None. -/
def initState : ConnState := ⟨none, none, none, none⟩

/-- is_authenticated: bool(self.access_token and self.realm_id). -/
def is_authenticated (s : ConnState) : Bool :=
  truthy s.access_token && truthy s.realm_id

/-- is_token_expired: True when token_expiry is None, otherwise
datetime.utcnow() >= token_expiry. -/
def is_token_expired (s : ConnState) (now : Int) : Bool :=
  match s.token_expiry with
  | none => true
  | some e => decide (e ≤ now)

/-- The configuration fields consumed by get_authorization_url. -/
structure Settings where
  quickbooks_client_id : String
  quickbooks_redirect_uri : String
  quickbooks_auth_url : String
deriving Repr, DecidableEq

/-- The fixed scope string QuickBooksConnector.SCOPES. -/
def SCOPES : String := "com.intuit.quickbooks.accounting"

/-- The params dict built by get_authorization_url, in insertion order. -/
def authorization_params (c : Settings) (state : String) :
    List (String × String) :=
  [("client_id", c.quickbooks_client_id),
   ("scope", SCOPES),
   ("redirect_uri", c.quickbooks_redirect_uri),
   ("response_type", "code"),
   ("state", state)]

/-- get_authorization_url with an explicit state argument: joins the
params as key=value pairs with ampersands after the auth URL.  No
logging, no network call. -/
def get_authorization_url (c : Settings) (state : String) : String :=
  c.quickbooks_auth_url ++ "?" ++
    String.intercalate "&"
      ((authorization_params c state).map (fun kv => kv.1 ++ "=" ++ kv.2))

/-- get_authorization_url called without a state argument: the Python
default parameter value is the literal string security_token. -/
def get_authorization_url_default (c : Settings) : String :=
  get_authorization_url c "security_token"

/-- The logging calls of the connector that pass structlog-style keyword
arguments to the standard library logger and therefore raise TypeError
when emitted: the error log of a non-200 code exchange, the info log of
a successful code exchange, the error log of a non-200 refresh, the
error log in the except block of _save_tokens, the warning log in the
except block of _load_tokens, and the error log of a 400-or-above
resource response in api_request. -/
inductive LogSite where
  | exchangeFailedLog
  | exchangeSuccessLog
  | refreshFailedLog
  | saveFailedLog
  | loadFailedLog
  | apiErrorLog
deriving Repr, DecidableEq

/-- The exceptions the connector operations can raise: the two reachable
QuickBooksError raises (no refresh token available; not authenticated),
and the TypeError a keyword-argument logging call raises at the given
site.  The QuickBooksError raises guarded by a keyword-argument
logger.error call (token exchange failed, token refresh failed, API
error) are unreachable: the TypeError fires first, and the upstream
status and body are lost. -/
inductive PyError where
  | noRefreshToken
  | notAuthenticated
  | typeError (site : LogSite)
deriving Repr, DecidableEq

/-- The upstream world as seen by one connector operation: the i-th
refresh POST to the token endpoint yields refreshResp i, the i-th
resource request yields resourceResp i (status code paired with the
parsed or raw body). -/
structure Upstream where
  refreshResp : Nat → Nat × TokenResponse
  resourceResp : Nat → Nat × String

/-- _save_tokens: writes the current four fields to the token file.  On
a write failure the except block calls logger.error with an error=
keyword argument, which itself raises TypeError — propagated to the
caller, leaving the file as it was.  On a successful write the info log
has no keyword arguments and is harmless.  The JSON serialization is
abstracted away: the store holds the record as a ConnState snapshot, or
none when no file exists. -/
def _save_tokens (s : ConnState) (store : Option ConnState)
    (saveFails : Bool) : Except PyError Unit × Option ConnState :=
  if saveFails then (.error (.typeError .saveFailedLog), store)
  else (.ok (), some s)

/-- refresh_access_token.  Raises noRefreshToken when the stored refresh
token is falsy, before any logging or network call (the call counter nR
is not advanced and the upstream is not consulted).  Otherwise consumes
one refresh response: a non-200 status raises the TypeError of the
keyword-argument error log (state unchanged; the status-carrying
QuickBooksError below it is unreachable); a 200 response overwrites
access_token with the access_token field (None when absent), overwrites
refresh_token only when the response carries one (dict.get with the old
value as default), recomputes token_expiry as
now + (expires_in or 3600) - 60, then persists via _save_tokens — whose
TypeError on failure propagates, after the state mutation.  The final
success info log has no keyword arguments and is harmless. -/
def refresh_access_token (s : ConnState) (now : Int) (up : Upstream)
    (nR : Nat) (store : Option ConnState) (saveFails : Bool) :
    Except PyError TokenResponse × ConnState × Option ConnState × Nat :=
  if ¬ truthy s.refresh_token then
    (.error .noRefreshToken, s, store, nR)
  else
    let r := up.refreshResp nR
    if r.1 ≠ 200 then
      (.error (.typeError .refreshFailedLog), s, store, nR + 1)
    else
      let td := r.2
      let s' : ConnState :=
        { access_token := td.access_token
          refresh_token :=
            match td.refresh_token with
            | some rt => some rt
            | none => s.refresh_token
          realm_id := s.realm_id
          token_expiry := some (now + (td.expires_in.getD 3600 - 60)) }
      match _save_tokens s' store saveFails with
      | (.error e, store1) => (.error e, s', store1, nR + 1)
      | (.ok _, store1) => (.ok td, s', store1, nR + 1)

/-- exchange_code_for_tokens.  A non-200 status raises the TypeError of
the keyword-argument error log (state unchanged; the status-carrying
QuickBooksError below it is unreachable).  A 200 response overwrites all
four fields: access_token and refresh_token from the response (None
when absent), realm_id from the caller-supplied argument, token_expiry
as now + (expires_in or 3600) - 60, then persists via _save_tokens —
whose TypeError on failure propagates, after the state mutation.  The
success info log passes realm_id= and expires_in= keyword arguments, so
when INFO is enabled it raises TypeError before the return; only with
INFO disabled is the token data returned. -/
def exchange_code_for_tokens (s : ConnState) (auth_code realm_id : String)
    (resp : Nat × TokenResponse) (now : Int) (store : Option ConnState)
    (saveFails infoEnabled : Bool) :
    Except PyError TokenResponse × ConnState × Option ConnState :=
  if resp.1 ≠ 200 then
    (.error (.typeError .exchangeFailedLog), s, store)
  else
    let td := resp.2
    let s' : ConnState :=
      { access_token := td.access_token
        refresh_token := td.refresh_token
        realm_id := some realm_id
        token_expiry := some (now + (td.expires_in.getD 3600 - 60)) }
    match _save_tokens s' store saveFails with
    | (.error e, store1) => (.error e, s', store1)
    | (.ok _, store1) =>
      if infoEnabled then (.error (.typeError .exchangeSuccessLog), s', store1)
      else (.ok td, s', store1)

/-- _ensure_valid_token: refreshes exactly when the token is expired and
a truthy refresh token is held; a refresh failure propagates, with
whatever state the refresh left behind.  Returns the raised error or
unit, the state to continue with, the store, and the number of refresh
calls issued (0 or 1). -/
def _ensure_valid_token (s : ConnState) (now : Int) (up : Upstream)
    (store : Option ConnState) (saveFails : Bool) :
    Except PyError Unit × ConnState × Option ConnState × Nat :=
  if is_token_expired s now && truthy s.refresh_token then
    match refresh_access_token s now up 0 store saveFails with
    | (.error e, s1, store1, n) => (.error e, s1, store1, n)
    | (.ok _, s1, store1, n) => (.ok (), s1, store1, n)
  else
    (.ok (), s, store, 0)

/-- The observable outcome of one api_request call: the returned body or
raised error, the final connector state, the final token file, the
number of refresh calls issued, and the bearer token of each resource
call in order. -/
structure ApiOutcome where
  result : Except PyError String
  state : ConnState
  store : Option ConnState
  refreshCalls : Nat
  resourceTokens : List (Option String)
deriving Repr

/-- api_request.  First _ensure_valid_token (whose failure propagates);
then the authentication check (raising notAuthenticated when
access_token or realm_id is falsy); then one resource call with the
bearer token.  A 401 triggers one unconditional refresh_access_token
(whose failure propagates) and exactly one retry with the new token.  A
final status of 400 or above raises the TypeError of the
keyword-argument error log (the status-carrying QuickBooksError below
it is unreachable); otherwise the body is returned. -/
def api_request (s : ConnState) (now : Int) (up : Upstream)
    (store : Option ConnState) (saveFails : Bool) : ApiOutcome :=
  match _ensure_valid_token s now up store saveFails with
  | (.error e, s1, store1, nR) => ⟨.error e, s1, store1, nR, []⟩
  | (.ok _, s1, store1, nR) =>
    if !truthy s1.access_token || !truthy s1.realm_id then
      ⟨.error .notAuthenticated, s1, store1, nR, []⟩
    else
      let r1 := up.resourceResp 0
      if r1.1 = 401 then
        match refresh_access_token s1 now up nR store1 saveFails with
        | (.error e, s2, store2, nR2) =>
          ⟨.error e, s2, store2, nR2, [s1.access_token]⟩
        | (.ok _, s2, store2, nR2) =>
          let r2 := up.resourceResp 1
          if 400 ≤ r2.1 then
            ⟨.error (.typeError .apiErrorLog), s2, store2, nR2,
              [s1.access_token, s2.access_token]⟩
          else
            ⟨.ok r2.2, s2, store2, nR2,
              [s1.access_token, s2.access_token]⟩
      else if 400 ≤ r1.1 then
        ⟨.error (.typeError .apiErrorLog), s1, store1, nR,
          [s1.access_token]⟩
      else
        ⟨.ok r1.2, s1, store1, nR, [s1.access_token]⟩

/-- The raw content of the token file as _load_tokens can encounter it:
absent, unreadable or unparsable as JSON, or a parsed record whose
token_expiry is still the raw string to be fed to
datetime.fromisoformat. -/
structure TokenRecord where
  access_token : Option String
  refresh_token : Option String
  realm_id : Option String
  token_expiry : Option String
deriving Repr, DecidableEq

/-- The three shapes the token file presents to _load_tokens. -/
inductive FileContents where
  | missing
  | unreadable
  | record (r : TokenRecord)
deriving Repr, DecidableEq

/-- _load_tokens.  A missing file does nothing and returns normally — no
logging runs at all.  Every exception inside the try block lands in the
except block, whose logger.warning call passes an error= keyword
argument and therefore itself raises TypeError to the caller.  Thus: an
unreadable or JSON-unparsable file raises before any field is assigned;
a parsed record assigns access_token, refresh_token and realm_id first,
and only then parses token_expiry — a truthy expiry string that
fromisoformat rejects raises after the three assignments (partial
hydration), and the except block then raises TypeError; on the fully
successful path the closing info log passes a realm_id= keyword
argument, so with INFO enabled it raises inside the try block and the
except block again raises TypeError — only with INFO disabled does load
return normally.  fromisoformat is the external library parser, supplied
as a parameter returning none exactly when it would raise. -/
def _load_tokens (s : ConnState) (file : FileContents)
    (fromisoformat : String → Option Int) (infoEnabled : Bool) :
    Except PyError Unit × ConnState :=
  match file with
  | .missing => (.ok (), s)
  | .unreadable => (.error (.typeError .loadFailedLog), s)
  | .record r =>
    let s1 : ConnState :=
      { access_token := r.access_token
        refresh_token := r.refresh_token
        realm_id := r.realm_id
        token_expiry := s.token_expiry }
    let finish : ConnState → Except PyError Unit × ConnState := fun s2 =>
      if infoEnabled then (.error (.typeError .loadFailedLog), s2)
      else (.ok (), s2)
    match r.token_expiry with
    | none => finish s1
    | some str =>
      if str.isEmpty then finish s1
      else
        match fromisoformat str with
        | some t => finish { s1 with token_expiry := some t }
        | none => (.error (.typeError .loadFailedLog), s1)

/-- disconnect: clears the four fields and removes the token file.  Its
closing info log has no keyword arguments and is harmless. -/
def disconnect (s : ConnState) (store : Option ConnState) :
    ConnState × Option ConnState :=
  (initState, none)

/-! Concrete fixtures used by witnesses and counterexamples. -/

/-- An authenticated state with a refresh token, expiring at time 1000. -/
def sAuth : ConnState := ⟨some "AT1", some "RT1", some "123", some 1000⟩

/-- An upstream whose token endpoint always succeeds with a fresh pair
and whose resource API always answers 401. -/
def upTwo401 : Upstream :=
  ⟨fun _ => (200, ⟨some "AT2", some "RT2", some 3600⟩),
   fun _ => (401, "denied")⟩

/-- An upstream whose token endpoint succeeds (with no refresh_token in
the body) and whose resource API succeeds. -/
def upRefreshOk : Upstream :=
  ⟨fun _ => (200, ⟨some "AT2", none, some 3600⟩),
   fun _ => (200, "ok")⟩

/-- An upstream whose token endpoint answers 500. -/
def upRefresh500 : Upstream :=
  ⟨fun _ => (500, ⟨none, none, none⟩),
   fun _ => (200, "ok")⟩

/-- An upstream whose token endpoint answers 200 with a body that omits
access_token entirely. -/
def upRefreshNoAccess : Upstream :=
  ⟨fun _ => (200, ⟨none, none, some 3600⟩),
   fun _ => (200, "ok")⟩

/-! Helper lemmas shared by the claim theorems. -/

/-- refresh_access_token never changes realm_id, in any branch. -/
theorem refresh_realm_eq (s : ConnState) (now : Int) (up : Upstream)
    (nR : Nat) (store : Option ConnState) (sf : Bool) :
    (refresh_access_token s now up nR store sf).2.1.realm_id = s.realm_id := by
  unfold refresh_access_token
  dsimp only
  split
  · rfl
  · split
    · rfl
    · split
      · rfl
      · rfl

/-- _ensure_valid_token never changes realm_id, whether it returns
normally or propagates a refresh failure. -/
theorem ensure_realm_eq (s : ConnState) (now : Int) (up : Upstream)
    (store : Option ConnState) (sf : Bool) :
    (_ensure_valid_token s now up store sf).2.1.realm_id = s.realm_id := by
  unfold _ensure_valid_token
  split
  · rcases hR : refresh_access_token s now up 0 store sf with ⟨res, s1, st1, n⟩
    have h := refresh_realm_eq s now up 0 store sf
    rw [hR] at h
    cases res <;> exact h
  · rfl

/-! Claim theorems. -/

/-- Claim C4: on a successful refresh, a response omitting refresh_token
leaves the stored refresh token unchanged, and a response carrying one
fully replaces the old value.  The field is set before the save and its
logging, so this holds whether or not the save fails. -/
theorem c4_refresh_token_rotation (s : ConnState) (now : Int)
    (up : Upstream) (nR : Nat) (store : Option ConnState) (sf : Bool)
    (hrt : truthy s.refresh_token = true)
    (h200 : (up.refreshResp nR).1 = 200) :
    ((up.refreshResp nR).2.refresh_token = none →
      (refresh_access_token s now up nR store sf).2.1.refresh_token =
        s.refresh_token) ∧
    (∀ rt, (up.refreshResp nR).2.refresh_token = some rt →
      (refresh_access_token s now up nR store sf).2.1.refresh_token =
        some rt) := by
  constructor
  · intro hNone
    cases sf <;> simp [refresh_access_token, _save_tokens, hrt, h200, hNone]
  · intro rt hSome
    cases sf <;> simp [refresh_access_token, _save_tokens, hrt, h200, hSome]

/-- Witness for C4 at a concrete refresh whose response omits
refresh_token: the stored token RT1 survives. -/
theorem c4_witness :
    truthy sAuth.refresh_token = true ∧
    (upRefreshOk.refreshResp 0).1 = 200 ∧
    (refresh_access_token sAuth 0 upRefreshOk 0 none false).2.1.refresh_token =
      some "RT1" :=
  ⟨by decide, rfl,
    (c4_refresh_token_rotation sAuth 0 upRefreshOk 0 none false
      (by decide) rfl).1 rfl⟩

/-- Claim C5: refresh with no refresh token held fails with the
no-refresh-token error, consults no upstream response (the call counter
is not advanced), runs no logging, and leaves state and store
unchanged. -/
theorem c5_refresh_without_token (s : ConnState) (now : Int)
    (up : Upstream) (nR : Nat) (store : Option ConnState) (sf : Bool)
    (h : truthy s.refresh_token = false) :
    refresh_access_token s now up nR store sf =
      (.error .noRefreshToken, s, store, nR) := by
  simp [refresh_access_token, h]

/-- Witness for C5 at a concrete state holding no refresh token. -/
theorem c5_witness :
    truthy (ConnState.refresh_token ⟨some "AT1", none, some "123", some 1000⟩) =
      false ∧
    refresh_access_token ⟨some "AT1", none, some "123", some 1000⟩ 0
        upRefreshOk 0 none false =
      (.error .noRefreshToken, ⟨some "AT1", none, some "123", some 1000⟩,
        none, 0) :=
  ⟨rfl, c5_refresh_without_token _ 0 upRefreshOk 0 none false rfl⟩

/-- Claim C6: both on a 200 code exchange and on a 200 refresh,
token_expiry is set to now plus the reported expires_in (defaulting to
3600 when absent) minus 60, the subtraction being unconditional also
for values below 60.  The field is set before the save and the success
logging, so this holds for every save and logging outcome. -/
theorem c6_expiry_formula (s : ConnState) (auth_code realm_id : String)
    (resp : Nat × TokenResponse) (now : Int) (up : Upstream) (nR : Nat)
    (store : Option ConnState) (sf iE : Bool) :
    (resp.1 = 200 →
      (exchange_code_for_tokens s auth_code realm_id resp now store
          sf iE).2.1.token_expiry =
        some (now + (resp.2.expires_in.getD 3600 - 60))) ∧
    (truthy s.refresh_token = true → (up.refreshResp nR).1 = 200 →
      (refresh_access_token s now up nR store sf).2.1.token_expiry =
        some (now + ((up.refreshResp nR).2.expires_in.getD 3600 - 60))) := by
  constructor
  · intro h
    cases sf <;> cases iE <;>
      simp [exchange_code_for_tokens, _save_tokens, h]
  · intro h1 h2
    cases sf <;> simp [refresh_access_token, _save_tokens, h1, h2]

/-- Witness for C6: an exchange reporting a 5-second TTL at time 100
yields expiry 45 (the 60-second margin applied below 60), and a refresh
whose response omits expires_in at time 100 yields expiry 3640. -/
theorem c6_witness :
    (exchange_code_for_tokens initState "abc" "123"
        (200, ⟨some "AT1", some "RT1", some 5⟩) 100 none
        false false).2.1.token_expiry = some 45 ∧
    (refresh_access_token sAuth 100
        ⟨fun _ => (200, ⟨some "AT2", none, none⟩), fun _ => (200, "ok")⟩
        0 none false).2.1.token_expiry = some 3640 :=
  ⟨(c6_expiry_formula initState "abc" "123"
      (200, ⟨some "AT1", some "RT1", some 5⟩) 100 upRefreshOk 0 none
      false false).1 rfl,
   (c6_expiry_formula sAuth "abc" "123"
      (200, ⟨some "AT1", some "RT1", some 5⟩) 100
      ⟨fun _ => (200, ⟨some "AT2", none, none⟩), fun _ => (200, "ok")⟩
      0 none false false).2 (by decide) rfl⟩

/-- Claim C8 (code bug): a failing save is not absorbed — the except
block of _save_tokens raises the TypeError of its own keyword-argument
error-logging call, which propagates to the caller.  The in-memory
state mutated before the save is nevertheless identical to the
save-success run, and the store is left untouched. -/
theorem c8_save_failure_propagates (s : ConnState) (now : Int)
    (up : Upstream) (nR : Nat) (store : Option ConnState) :
    _save_tokens s store true =
      (.error (.typeError .saveFailedLog), store) ∧
    (refresh_access_token s now up nR store true).2.1 =
      (refresh_access_token s now up nR store false).2.1 ∧
    (refresh_access_token s now up nR store true).2.2.1 = store := by
  refine ⟨rfl, ?_, ?_⟩ <;>
    · simp only [refresh_access_token, _save_tokens]
      repeat' split
      all_goals simp_all

/-- Claim C10: get_authorization_url called without an explicit state
argument uses the fixed default string security_token as the state query
parameter — identical for every configuration, hence across all such
calls. -/
theorem c10_default_state_constant (c : Settings) :
    List.lookup "state" (authorization_params c "security_token") =
      some "security_token" ∧
    get_authorization_url_default c =
      get_authorization_url c "security_token" :=
  ⟨rfl, rfl⟩

/-- Counterexample to C3 as stated: a token file that parses as JSON but
whose token_expiry string is rejected by fromisoformat neither returns
normally nor yields the no-credentials state — the except block raises
the TypeError of its keyword-argument warning call, and the token
fields were already assigned when the parse raised, leaving the state
partially hydrated from the bad record. -/
theorem c3_counterexample :
    (_load_tokens initState
        (.record ⟨some "AT1", some "RT1", some "123", some "garbage"⟩)
        (fun _ => none) true).1 = .error (.typeError .loadFailedLog) ∧
    (_load_tokens initState
        (.record ⟨some "AT1", some "RT1", some "123", some "garbage"⟩)
        (fun _ => none) true).2.access_token = some "AT1" :=
  ⟨rfl, rfl⟩

/-- Claim C3 amended: only a missing file yields the untouched
no-credentials state without raising.  An unreadable or JSON-unparsable
file raises the TypeError of the keyword-argument warning call in the
except block (no field assigned); a record whose truthy expiry string
fails to parse raises the same TypeError with the three token fields
already copied from the record and token_expiry still absent (partial
hydration); a well-formed record returns normally only when INFO
logging is disabled — under the INFO configuration of the application
the success-path info log raises inside the try block and the except
block raises the same TypeError, with the state fully hydrated. -/
theorem c3_amended_load (parse : String → Option Int) (r : TokenRecord)
    (iE : Bool) :
    _load_tokens initState .missing parse iE = (.ok (), initState) ∧
    _load_tokens initState .unreadable parse iE =
      (.error (.typeError .loadFailedLog), initState) ∧
    (∀ str, r.token_expiry = some str → str.isEmpty = false →
      parse str = none →
      _load_tokens initState (.record r) parse iE =
        (.error (.typeError .loadFailedLog),
          ⟨r.access_token, r.refresh_token, r.realm_id, none⟩)) ∧
    (∀ str t, r.token_expiry = some str → str.isEmpty = false →
      parse str = some t →
      _load_tokens initState (.record r) parse iE =
        (if iE then .error (.typeError .loadFailedLog) else .ok (),
          ⟨r.access_token, r.refresh_token, r.realm_id, some t⟩)) := by
  refine ⟨rfl, rfl, ?_, ?_⟩
  · intro str h1 h2 h3
    simp [_load_tokens, h1, h2, h3, initState]
  · intro str t h1 h2 h3
    cases iE <;> simp [_load_tokens, h1, h2, h3, initState]

/-- Witness for the amended C3 at concrete records: a missing file, a
bad-expiry record (raises, partially hydrated), and a well-formed
record under the INFO configuration (raises, fully hydrated). -/
theorem c3_amended_witness :
    _load_tokens initState .missing (fun _ => none) false =
      (.ok (), initState) ∧
    _load_tokens initState
        (.record ⟨some "AT1", none, some "123", some "bad"⟩)
        (fun _ => none) false =
      (.error (.typeError .loadFailedLog),
        ⟨some "AT1", none, some "123", none⟩) ∧
    _load_tokens initState
        (.record ⟨some "AT1", none, some "123", some "77"⟩)
        (fun _ => some 77) true =
      (.error (.typeError .loadFailedLog),
        ⟨some "AT1", none, some "123", some 77⟩) := by
  refine ⟨?_, ?_, ?_⟩
  · exact (c3_amended_load (fun _ => none)
      ⟨some "AT1", none, some "123", some "bad"⟩ false).1
  · exact (c3_amended_load (fun _ => none)
      ⟨some "AT1", none, some "123", some "bad"⟩ false).2.2.1 "bad" rfl rfl
      rfl
  · have h := (c3_amended_load (fun _ => some 77)
      ⟨some "AT1", none, some "123", some "77"⟩ true).2.2.2 "77" 77 rfl rfl
      rfl
    simpa using h

/-- Counterexample to C7 as stated: with quiet logging and a working
store, an exchange answered 200 with an empty JSON object returns the
token data yet leaves the connector unauthenticated; with INFO enabled
(the configuration of the application) even a full 200 response makes
the operation raise the TypeError of the keyword-argument success log
instead of returning; and with a failing save the operation raises the
TypeError of the save error log and nothing is persisted. -/
theorem c7_counterexample :
    (exchange_code_for_tokens initState "abc" "123" (200, ⟨none, none, none⟩)
        0 none false false).1 = .ok ⟨none, none, none⟩ ∧
    is_authenticated
      (exchange_code_for_tokens initState "abc" "123" (200, ⟨none, none, none⟩)
        0 none false false).2.1 = false ∧
    (exchange_code_for_tokens initState "abc" "123"
        (200, ⟨some "AT1", some "RT1", some 3600⟩) 0 none false true).1 =
      .error (.typeError .exchangeSuccessLog) ∧
    (exchange_code_for_tokens initState "abc" "123"
        (200, ⟨some "AT1", some "RT1", some 3600⟩) 0 none true false).1 =
      .error (.typeError .saveFailedLog) :=
  ⟨rfl, rfl, rfl, rfl⟩

/-- Claim C7 amended: after an exchange whose upstream call returns 200,
realm_id is set to the caller-supplied value (never taken from the
response) and access_token to whatever the response carried, in every
save and logging outcome; the operation returns the token data and the
store holds the new Credential Set exactly when the save succeeds and
INFO logging is disabled; a failing save raises its TypeError and
leaves the store untouched; with INFO enabled the success log raises
its TypeError instead of returning; and the connector is authenticated
provided the response carried a truthy access_token and the supplied
realm_id is non-empty. -/
theorem c7_amended_exchange (s : ConnState) (auth_code realm_id : String)
    (td : TokenResponse) (now : Int) (store : Option ConnState)
    (sf iE : Bool) :
    (exchange_code_for_tokens s auth_code realm_id (200, td) now store sf
        iE).2.1.realm_id = some realm_id ∧
    (exchange_code_for_tokens s auth_code realm_id (200, td) now store sf
        iE).2.1.access_token = td.access_token ∧
    (sf = false → iE = false →
      (exchange_code_for_tokens s auth_code realm_id (200, td) now store
          sf iE).1 = .ok td ∧
      (exchange_code_for_tokens s auth_code realm_id (200, td) now store
          sf iE).2.2 =
        some (exchange_code_for_tokens s auth_code realm_id (200, td) now
          store sf iE).2.1) ∧
    (sf = true →
      (exchange_code_for_tokens s auth_code realm_id (200, td) now store
          sf iE).1 = .error (.typeError .saveFailedLog) ∧
      (exchange_code_for_tokens s auth_code realm_id (200, td) now store
          sf iE).2.2 = store) ∧
    (sf = false → iE = true →
      (exchange_code_for_tokens s auth_code realm_id (200, td) now store
          sf iE).1 = .error (.typeError .exchangeSuccessLog)) ∧
    (truthy td.access_token = true → truthy (some realm_id) = true →
      is_authenticated
        (exchange_code_for_tokens s auth_code realm_id (200, td) now store
          sf iE).2.1 = true) := by
  refine ⟨?_, ?_, ?_, ?_, ?_, ?_⟩
  · cases sf <;> cases iE <;>
      simp [exchange_code_for_tokens, _save_tokens]
  · cases sf <;> cases iE <;>
      simp [exchange_code_for_tokens, _save_tokens]
  · intro h1 h2
    subst h1; subst h2
    simp [exchange_code_for_tokens, _save_tokens]
  · intro h1
    subst h1
    cases iE <;> simp [exchange_code_for_tokens, _save_tokens]
  · intro h1 h2
    subst h1; subst h2
    simp [exchange_code_for_tokens, _save_tokens]
  · intro h1 h2
    cases sf <;> cases iE <;>
      simp [exchange_code_for_tokens, _save_tokens, is_authenticated, h1,
        h2]

/-- Witness for the amended C7: the scenario of the specification, with
code abc and tenant 123 and a full token response at time 0, under
quiet logging and a working store. -/
theorem c7_amended_witness :
    (exchange_code_for_tokens initState "abc" "123"
        (200, ⟨some "AT1", some "RT1", some 3600⟩) 0 none false false).1 =
      .ok ⟨some "AT1", some "RT1", some 3600⟩ ∧
    (exchange_code_for_tokens initState "abc" "123"
        (200, ⟨some "AT1", some "RT1", some 3600⟩) 0 none false
        false).2.1.realm_id = some "123" ∧
    (exchange_code_for_tokens initState "abc" "123"
        (200, ⟨some "AT1", some "RT1", some 3600⟩) 0 none false
        false).2.2 =
      some (exchange_code_for_tokens initState "abc" "123"
        (200, ⟨some "AT1", some "RT1", some 3600⟩) 0 none false
        false).2.1 ∧
    is_authenticated
      (exchange_code_for_tokens initState "abc" "123"
        (200, ⟨some "AT1", some "RT1", some 3600⟩) 0 none false
        false).2.1 = true := by
  have h := c7_amended_exchange initState "abc" "123"
    ⟨some "AT1", some "RT1", some 3600⟩ 0 none false false
  exact ⟨(h.2.2.1 rfl rfl).1, h.1, (h.2.2.1 rfl rfl).2,
    h.2.2.2.2.2 rfl rfl⟩

/-- Counterexample to C9 as stated: from the freshly exchanged
authenticated state, a refresh answered 200 with a body omitting
access_token reaches a state where access_token is absent while
realm_id is still present — the both-present-or-both-absent invariant
is not maintained by the reachable states. -/
theorem c9_counterexample :
    (refresh_access_token
        (exchange_code_for_tokens initState "abc" "123"
          (200, ⟨some "AT1", some "RT1", some 3600⟩) 0 none false
          false).2.1
        0 upRefreshNoAccess 0 none false).2.1.access_token = none ∧
    (refresh_access_token
        (exchange_code_for_tokens initState "abc" "123"
          (200, ⟨some "AT1", some "RT1", some 3600⟩) 0 none false
          false).2.1
        0 upRefreshNoAccess 0 none false).2.1.realm_id = some "123" :=
  ⟨rfl, rfl⟩

/-- Claim C9 amended: is_authenticated is exactly the conjunction of
access_token and realm_id being truthy; the conjunction is false in the
initial and disconnected states, and true after a 200 exchange whose
response carries a truthy access_token with a non-empty caller-supplied
realm_id — but states with exactly one of the two fields present remain
reachable, as the counterexample shows. -/
theorem c9_amended_conjunction (s : ConnState)
    (auth_code realm_id : String) (td : TokenResponse) (now : Int)
    (store : Option ConnState) (sf iE : Bool) :
    is_authenticated s = (truthy s.access_token && truthy s.realm_id) ∧
    is_authenticated initState = false ∧
    is_authenticated (disconnect s store).1 = false ∧
    (truthy td.access_token = true → truthy (some realm_id) = true →
      is_authenticated
        (exchange_code_for_tokens s auth_code realm_id (200, td) now store
          sf iE).2.1 = true) := by
  refine ⟨rfl, rfl, rfl, ?_⟩
  intro h1 h2
  cases sf <;> cases iE <;>
    simp [exchange_code_for_tokens, _save_tokens, is_authenticated, h1, h2]

/-- Witness for the amended C9 at a concrete exchange. -/
theorem c9_amended_witness :
    is_authenticated sAuth = (truthy sAuth.access_token &&
      truthy sAuth.realm_id) ∧
    is_authenticated
      (exchange_code_for_tokens initState "abc" "123"
        (200, ⟨some "AT1", some "RT1", some 3600⟩) 0 none false
        false).2.1 = true := by
  have h := c9_amended_conjunction sAuth "abc" "123"
    ⟨some "AT1", some "RT1", some 3600⟩ 0 none false false
  have h2 := c9_amended_conjunction initState "abc" "123"
    ⟨some "AT1", some "RT1", some 3600⟩ 0 none false false
  exact ⟨h.1, h2.2.2.2 rfl rfl⟩

/-- Counterexample to C2 as stated: in a state with no access_token and
no realm_id but an expired clock and a refresh token held, api_request
first issues a refresh network call and only then fails — when the
refresh succeeds the failure is notAuthenticated after one refresh call
(not before any), and when the refresh answers 500 the surfaced error
is the TypeError of the refresh error log, not notAuthenticated and not
a status-carrying refresh error. -/
theorem c2_counterexample :
    ((api_request ⟨none, some "RT1", none, none⟩ 0 upRefreshOk none
        false).refreshCalls = 1 ∧
      (api_request ⟨none, some "RT1", none, none⟩ 0 upRefreshOk none
        false).result = .error .notAuthenticated) ∧
    (api_request ⟨none, some "RT1", none, none⟩ 0 upRefresh500 none
        false).result = .error (.typeError .refreshFailedLog) :=
  ⟨⟨rfl, rfl⟩, rfl⟩

/-- Claim C2 amended: the missing-credentials check runs after the
pre-flight refresh step, so: when no pre-flight refresh is triggered
(token not expired or no refresh token held), a state lacking a truthy
access_token or realm_id fails immediately with notAuthenticated,
issuing no network call of any kind and changing nothing; whenever
realm_id is absent the call makes no resource call at all and fails;
and a non-200 pre-flight refresh aborts the call with the TypeError of
the refresh error log (the upstream status is never surfaced), again
with no resource call. -/
theorem c2_amended_unauthenticated (s : ConnState) (now : Int)
    (up : Upstream) (store : Option ConnState) (sf : Bool) :
    (is_authenticated s = false →
      (is_token_expired s now && truthy s.refresh_token) = false →
      api_request s now up store sf =
        ⟨.error .notAuthenticated, s, store, 0, []⟩) ∧
    (truthy s.realm_id = false →
      (api_request s now up store sf).resourceTokens = [] ∧
      ∃ e, (api_request s now up store sf).result = .error e) ∧
    (is_token_expired s now = true → truthy s.refresh_token = true →
      (up.refreshResp 0).1 ≠ 200 →
      (api_request s now up store sf).result =
        .error (.typeError .refreshFailedLog) ∧
      (api_request s now up store sf).resourceTokens = []) := by
  refine ⟨?_, ?_, ?_⟩
  · intro hA hC
    have hE : _ensure_valid_token s now up store sf =
        (.ok (), s, store, 0) := by
      simp [_ensure_valid_token, hC]
    have hcond : (!truthy s.access_token || !truthy s.realm_id) = true := by
      rw [← Bool.not_and]
      simp only [is_authenticated] at hA
      simp [hA]
    simp [api_request, hE, hcond]
  · intro hR
    rcases hE : _ensure_valid_token s now up store sf with ⟨res, s1, st1, n1⟩
    have hr := ensure_realm_eq s now up store sf
    rw [hE] at hr
    cases res with
    | error e =>
      simp [api_request, hE]
    | ok u =>
      have hcond : (!truthy s1.access_token || !truthy s1.realm_id) = true := by
        have : truthy s1.realm_id = false := by
          rw [show s1.realm_id = s.realm_id from hr, hR]
        simp [this]
      simp [api_request, hE, hcond]
  · intro hExp hRT hNot200
    have hE : _ensure_valid_token s now up store sf =
        (.error (.typeError .refreshFailedLog), s, store, 1) := by
      simp [_ensure_valid_token, hExp, hRT, refresh_access_token, hNot200]
    simp [api_request, hE]

/-- Witness for the amended C2: the fully empty state fails immediately
with no network call, and the half-empty state with a failing refresh
makes no resource call and surfaces the logging TypeError. -/
theorem c2_amended_witness :
    api_request initState 0 upRefreshOk none false =
      ⟨.error .notAuthenticated, initState, none, 0, []⟩ ∧
    (api_request ⟨none, some "RT1", none, none⟩ 0 upRefresh500 none
        false).resourceTokens = [] ∧
    (api_request ⟨none, some "RT1", none, none⟩ 0 upRefresh500 none
        false).result = .error (.typeError .refreshFailedLog) := by
  refine ⟨?_, ?_, ?_⟩
  · exact (c2_amended_unauthenticated initState 0 upRefreshOk none
      false).1 rfl rfl
  · exact ((c2_amended_unauthenticated ⟨none, some "RT1", none, none⟩ 0
      upRefresh500 none false).2.1 rfl).1
  · exact ((c2_amended_unauthenticated ⟨none, some "RT1", none, none⟩ 0
      upRefresh500 none false).2.2 rfl (by decide) (by decide)).1

/-- Counterexample to C1 as stated: with an expired token, a refresh
token present and a failing token save, api_request issues one refresh
call and then aborts with the TypeError propagating from the save error
log — no resource call follows the refresh. -/
theorem c1_counterexample :
    (api_request sAuth 2000 upRefreshOk none true).refreshCalls = 1 ∧
    (api_request sAuth 2000 upRefreshOk none true).resourceTokens = [] ∧
    (api_request sAuth 2000 upRefreshOk none true).result =
      .error (.typeError .saveFailedLog) :=
  ⟨rfl, rfl, rfl⟩

/-- Claim C1 amended: call counts of api_request, provided token
persistence succeeds where a refresh is involved.  With an unexpired
token and a non-401 success status, exactly one resource call and no
refresh is issued, for every save outcome.  With an expired token, a
refresh token held and a succeeding save, one refresh is followed by
exactly one resource call.  When the first resource call answers 401,
exactly one unconditional refresh and exactly one retry with the new
access token occur, and a second 401 is surfaced as a failure (the
TypeError of the API error log — not a status-carrying error) with no
further retry. -/
theorem c1_amended_call_counts (s : ConnState) (now : Int)
    (up : Upstream) (store : Option ConnState) (sf : Bool) :
    (is_authenticated s = true → is_token_expired s now = false →
      (up.resourceResp 0).1 ≠ 401 → ¬ 400 ≤ (up.resourceResp 0).1 →
      api_request s now up store sf =
        ⟨.ok (up.resourceResp 0).2, s, store, 0, [s.access_token]⟩) ∧
    (sf = false → is_token_expired s now = true →
      truthy s.refresh_token = true →
      (up.refreshResp 0).1 = 200 →
      truthy (up.refreshResp 0).2.access_token = true →
      truthy s.realm_id = true →
      (up.resourceResp 0).1 ≠ 401 → ¬ 400 ≤ (up.resourceResp 0).1 →
      (api_request s now up store sf).refreshCalls = 1 ∧
      (api_request s now up store sf).resourceTokens =
        [(up.refreshResp 0).2.access_token] ∧
      (api_request s now up store sf).result =
        .ok (up.resourceResp 0).2) ∧
    (sf = false → is_authenticated s = true →
      is_token_expired s now = false →
      (up.resourceResp 0).1 = 401 →
      truthy s.refresh_token = true → (up.refreshResp 0).1 = 200 →
      (api_request s now up store sf).refreshCalls = 1 ∧
      (api_request s now up store sf).resourceTokens =
        [s.access_token, (up.refreshResp 0).2.access_token] ∧
      ((up.resourceResp 1).1 = 401 →
        (api_request s now up store sf).result =
          .error (.typeError .apiErrorLog))) := by
  refine ⟨?_, ?_, ?_⟩
  · intro hA hNE h401 h400
    have hab := hA
    simp only [is_authenticated, Bool.and_eq_true] at hab
    simp [api_request, _ensure_valid_token, hNE, hab.1, hab.2, h401,
      h400]
  · intro hsf hE hRT hROk hAT hRealm h401 h400
    subst hsf
    have hF : _ensure_valid_token s now up store false =
        (.ok (), (refresh_access_token s now up 0 store false).2.1,
          (refresh_access_token s now up 0 store false).2.2.1,
          (refresh_access_token s now up 0 store false).2.2.2) := by
      simp [_ensure_valid_token, hE, hRT, refresh_access_token, hROk,
        _save_tokens]
    have hS : (refresh_access_token s now up 0 store false).2.1.access_token =
        (up.refreshResp 0).2.access_token := by
      simp [refresh_access_token, _save_tokens, hRT, hROk]
    have hN : (refresh_access_token s now up 0 store false).2.2.2 = 1 := by
      simp [refresh_access_token, _save_tokens, hRT, hROk]
    have hreal : (refresh_access_token s now up 0 store false).2.1.realm_id =
        s.realm_id := refresh_realm_eq s now up 0 store false
    simp [api_request, hF, hS, hN, hreal, hAT, hRealm, h401, h400]
  · intro hsf hA hNE h401 hRT hROk
    subst hsf
    have hab := hA
    simp only [is_authenticated, Bool.and_eq_true] at hab
    refine ⟨?_, ?_, ?_⟩
    · by_cases h4 : 400 ≤ (up.resourceResp 1).1 <;>
        simp [api_request, _ensure_valid_token, refresh_access_token,
          _save_tokens, hNE, hab.1, hab.2, h401, hRT, hROk, h4]
    · by_cases h4 : 400 ≤ (up.resourceResp 1).1 <;>
        simp [api_request, _ensure_valid_token, refresh_access_token,
          _save_tokens, hNE, hab.1, hab.2, h401, hRT, hROk, h4]
    · intro h401b
      have h4 : 400 ≤ (up.resourceResp 1).1 := by omega
      simp [api_request, _ensure_valid_token, refresh_access_token,
        _save_tokens, hNE, hab.1, hab.2, h401, hRT, hROk, h4, h401b]

/-- Witness for the amended C1 at a concrete run hitting the 401-retry
path twice with a working store: one refresh, two resource calls
bearing the old then the new token, and the second 401 surfaced as the
logging TypeError. -/
theorem c1_witness :
    (api_request sAuth 0 upTwo401 none false).refreshCalls = 1 ∧
    (api_request sAuth 0 upTwo401 none false).resourceTokens =
      [some "AT1", some "AT2"] ∧
    (api_request sAuth 0 upTwo401 none false).result =
      .error (.typeError .apiErrorLog) := by
  have h := (c1_amended_call_counts sAuth 0 upTwo401 none false).2.2
    rfl (by decide) (by decide) rfl (by decide) rfl
  exact ⟨h.1, h.2.1, h.2.2 rfl⟩

end QB
